import Mathlib

/-!
Verification of the pixel_api event-ingestion server (`api/index.ts`).

The server is an Express application over a PostgreSQL pool.  We embed the
request handlers that the specification covers as pure Lean functions over an
explicit database/state model:

* JSON values carried in request bodies are modelled by `JVal` (numbers as
  integers; every number in this model is finite).
* JavaScript truthiness (`if (x)`, `x || y`), nullish coalescing (`x ?? y`)
  and optional chaining (`x?.k`) are modelled by `truthyV`, `jsOr`, `nullish`
  and `jget`/`jgetOpt`.
* `Date` values are represented by their underlying payload: `new Date()` at
  current time `now` is `JVal.num now`, and `new Date(x)` is `x` itself.
* The four tables (`pixel_users`, `pixel_sessions`, `pixel_events`,
  `pixel_metadata`) are association lists of rows inside `DB`; SQL
  `ON CONFLICT ... DO UPDATE` is `upsertBy`, and SQL `COALESCE` is `coalesce`.
  Of the forty columns of `pixel_events` we carry the ones the specification's
  claims mention (identifiers, timestamps, page location, user agent,
  campaign, ecommerce, raw payload); the remaining columns are filled by the
  same `x || null` / finiteness normalizations and are referenced by no claim.
* Storage faults are injected through a `Fault` oracle saying which `INSERT`
  inside the `BEGIN`/`COMMIT` block raises; `BEGIN`/`ROLLBACK` is modelled by
  restoring the database state from before the transaction (PostgreSQL
  sequences do not roll back, so the event-id counter stays advanced when the
  event insert itself succeeded).
-/

/-- JSON-ish values of the JavaScript runtime: `undefined` is represented by
`Option.none` at use sites, `null` by `JVal.null`.  Numbers are modelled as
integers, so every modelled number is finite.  Objects are association lists
encoded directly in the inductive (`objNil` / `objCons`), so decidable
equality derives. -/
inductive JVal where
  | null : JVal
  | bool : Bool → JVal
  | num  : Int → JVal
  | str  : String → JVal
  | objNil : JVal
  | objCons : String → JVal → JVal → JVal
  deriving DecidableEq, Repr

/-- Object literal built from an association list of fields. -/
def JVal.obj : List (String × JVal) → JVal
  | [] => .objNil
  | (k, v) :: rest => .objCons k v (JVal.obj rest)

/-- JavaScript truthiness of a defined value: `null`, `false`, `0` and `""`
are falsy, everything else (including `\x7b\x7d`) is truthy. -/
def truthyV : JVal → Bool
  | .null => false
  | .bool b => b
  | .num n => n ≠ 0
  | .str s => s ≠ ""
  | .objNil => true
  | .objCons _ _ _ => true

/-- Truthiness of a possibly-undefined value (`undefined` is falsy). -/
def truthy (v : Option JVal) : Bool :=
  match v with
  | some w => truthyV w
  | none => false

/-- Property access `obj[k]`: `none` when the value is not an object or the
key is absent (JavaScript `undefined`). -/
def jget : JVal → String → Option JVal
  | .objCons k v rest, key => if k = key then some v else jget rest key
  | _, _ => none

/-- Optional chaining `v?.k` on a possibly-undefined value. -/
def jgetOpt (v : Option JVal) (k : String) : Option JVal :=
  match v with
  | some w => jget w k
  | none => none

/-- JavaScript `a || b` where `a` may be undefined: the left value when
truthy, else `b`. -/
def jsOr (a : Option JVal) (b : JVal) : JVal :=
  match a with
  | some v => if truthyV v then v else b
  | none => b

/-- JavaScript `a || null`, the normalization applied to most insert
parameters. -/
def orNull (a : Option JVal) : JVal :=
  jsOr a .null

/-- JavaScript nullish coalescing `a ?? b`: `b` exactly when `a` is
`undefined` or `null`. -/
def nullish (a : Option JVal) (b : JVal) : JVal :=
  match a with
  | some .null => b
  | some v => v
  | none => b

/-- SQL `COALESCE(a, b)` over our value model (SQL `NULL` is `JVal.null`). -/
def coalesce (a b : JVal) : JVal :=
  if a = .null then b else a

/-- String conversion used by the template literal in the dedupe key
(JavaScript `String(x)` semantics on our value model). -/
def jsStringOf (v : Option JVal) : String :=
  match v with
  | none => "undefined"
  | some .null => "null"
  | some (.bool true) => "true"
  | some (.bool false) => "false"
  | some (.num n) => toString n
  | some (.str s) => s
  | some .objNil => "[object Object]"
  | some (.objCons _ _ _) => "[object Object]"

/-- JavaScript `typeof x === "number"` on a possibly-undefined value (every
number of this model is an actual number). -/
def typeofIsNumber (v : Option JVal) : Bool :=
  match v with
  | some (.num _) => true
  | _ => false

/-- JavaScript `typeof x === "string"` on a possibly-undefined value. -/
def typeofIsString (v : Option JVal) : Bool :=
  match v with
  | some (.str _) => true
  | _ => false

/-- Source: `validateEvent` (api/index.ts).  Required-field checks push hard
errors, the session check pushes a soft warning, and a `"purchase"` event
additionally requires a numeric `ecommerce.value` and a string
`ecommerce.currency`. -/
def validateEvent (ev : JVal) : List String × List String :=
  let errs :=
    (if truthy (jget ev "event_id") then [] else ["missing:event_id"]) ++
    (if truthy (jget ev "event_name") then [] else ["missing:event_name"]) ++
    (if truthy (jget ev "client_id") then [] else ["missing:client_id"]) ++
    (if jget ev "event_name" = some (.str "purchase") then
      (if typeofIsNumber (jgetOpt (jget ev "ecommerce") "value") then []
        else ["missing:ecommerce.value"]) ++
      (if typeofIsString (jgetOpt (jget ev "ecommerce") "currency") then []
        else ["missing:ecommerce.currency"])
      else [])
  let warns := if truthy (jget ev "session_id") then [] else ["recommend:session_id"]
  (errs, warns)

/-- The in-memory dedupe cache: a `Map<string, number>` in insertion order. -/
abbrev Dedupe := List (String × Nat)

/-- The dedupe fingerprint `$\x7bev.event_name\x7d:$\x7bev.event_id\x7d`. -/
def dedupeKey (ev : JVal) : String :=
  jsStringOf (jget ev "event_name") ++ ":" ++ jsStringOf (jget ev "event_id")

/-- Negation of the eviction test `now - ts > 60000` of `shouldStore`: the
entries the sweep keeps. -/
def notExpired (now : Nat) (kv : String × Nat) : Bool :=
  ¬ now - kv.2 > 60000

theorem notExpired_eq_true (now : Nat) (kv : String × Nat) :
    notExpired now kv = true ↔ now - kv.2 ≤ 60000 := by
  simp [notExpired]

/-- Source: `shouldStore` (api/index.ts).  Evict entries older than the 60 s
window (keep exactly the `notExpired` ones), then report (and register)
first sight of the fingerprint.  Returns the decision together with the
updated cache (the module-level `dedupe` map). -/
def shouldStore (ev : JVal) (now : Nat) (dd : Dedupe) : Bool × Dedupe :=
  let key := dedupeKey ev
  let dd' := dd.filter (notExpired now)
  if dd'.any (fun kv => kv.1 = key) then
    (false, dd')
  else
    (true, dd' ++ [(key, now)])

/-- Row of `public.pixel_users` (columns the handlers read or write). -/
structure UserRow where
  client_id : JVal
  traits : JVal
  last_seen : JVal
  user_id : JVal
  email_sha256 : JVal
  phone_sha256 : JVal
  deriving DecidableEq, Repr

/-- Row of `public.pixel_sessions`. -/
structure SessionRow where
  session_id : JVal
  client_id : JVal
  started_at : JVal
  first_page : JVal
  last_page : JVal
  deriving DecidableEq, Repr

/-- Row of `public.pixel_events`, restricted to the columns the claims
mention; `id` is the serial primary key returned by `RETURNING id`. -/
structure EventRow where
  id : Nat
  event_id : JVal
  event_name : JVal
  timestamp : JVal
  client_id : JVal
  session_id : JVal
  page_location : JVal
  user_agent : JVal
  occurred_at : JVal
  campaign : JVal
  ecommerce : JVal
  raw_payload : JVal
  deriving DecidableEq, Repr

/-- Row of `public.pixel_metadata`. -/
structure MetaRow where
  pixel_event_id : Nat
  ip_address : JVal
  headers : String
  geo_location : JVal
  user_agent : JVal
  request_id : JVal
  deriving DecidableEq, Repr

/-- The relational store: the four tables plus the serial counter backing
`pixel_events.id`. -/
structure DB where
  users : List UserRow
  sessions : List SessionRow
  events : List EventRow
  metadata : List MetaRow
  nextEventId : Nat
  deriving DecidableEq, Repr

/-- SQL `INSERT ... ON CONFLICT ... DO UPDATE`: update the matching row when
one exists, else append the fresh row. -/
def upsertBy {α : Type} (hit : α → Bool) (upd : α → α) (ins : α) (l : List α) :
    List α :=
  if l.any hit then l.map (fun x => if hit x then upd x else x) else l ++ [ins]

/-- Request context read from the Express request: the headers the handlers
consult, the peer address, and the serialized header bag. -/
structure ReqCtx where
  userAgent : Option String
  xForwardedFor : Option String
  remoteAddress : Option String
  requestId : Option String
  headersJson : String
  deriving DecidableEq, Repr

/-- JavaScript `a || b` on an optional string against a `JVal` fallback
(an empty string is falsy). -/
def strOr (a : Option String) (b : JVal) : JVal :=
  match a with
  | some s => if s ≠ "" then .str s else b
  | none => b

/-- Source: the ip computation of both event handlers —
`(req.headers["x-forwarded-for"])?.split(",")[0]?.trim() ||
req.socket.remoteAddress || null`. -/
def ipOf (ctx : ReqCtx) : JVal :=
  strOr (ctx.xForwardedFor.map (fun s => ((s.splitOn ",").headD "").trim))
    (strOr ctx.remoteAddress .null)

/-- The metadata row built for a stored single event (`geo_location` is the
literal `null`). -/
def metaRowOf (ctx : ReqCtx) (eventDbId : Nat) : MetaRow :=
  { pixel_event_id := eventDbId
    ip_address := ipOf ctx
    headers := ctx.headersJson
    geo_location := .null
    user_agent := strOr ctx.userAgent .null
    request_id := strOr ctx.requestId .null }

/-- Source: `toTimestampTz` — `ms && Number.isFinite(ms) ? new Date(ms) :
new Date()` (all modelled numbers are finite, and a non-number is never
`Number.isFinite`). -/
def toTimestampTz (ms : Option JVal) (now : Nat) : JVal :=
  match ms with
  | some (.num n) => if truthyV (.num n) then .num n else .num now
  | _ => .num now

/-- Occurrence time resolution of both event handlers: `ev.occurred_at ?
new Date(ev.occurred_at) : toTimestampTz(ev.timestamp)`. -/
def occurredAtOf (ev : JVal) (now : Nat) : JVal :=
  if truthy (jget ev "occurred_at") then (jget ev "occurred_at").getD .null
  else toTimestampTz (jget ev "timestamp") now

/-- The fixed list of legacy flat attribution fields (utm parameters and ad
platform click ids) inspected by both event handlers. -/
def legacyCampaignKeys : List String :=
  ["utm_source", "utm_medium", "utm_campaign", "utm_content", "utm_term",
   "gclid", "fbclid", "wbraid", "gbraid", "msclkid", "ttclid", "yclid"]

/-- Source: `pick` — copy each listed key whose value on the record is not
`undefined` (an explicit `null` is copied). -/
def pick (ev : JVal) (keys : List String) : List (String × JVal) :=
  keys.filterMap (fun k => (jget ev k).map (fun v => (k, v)))

/-- The campaign resolution of both event handlers: `ev.campaign ||
legacyCampaign || null`, where `legacyCampaign` is the object built by
`pick` (the parameter list then applies one more `campaign || null`, kept in
`eventRowOf`). -/
def campaignOf (ev : JVal) : JVal :=
  let legacyCampaign := JVal.obj (pick ev legacyCampaignKeys)
  jsOr (jget ev "campaign") (jsOr (some legacyCampaign) .null)

/-- The event row inserted by either event handler; `ua` is the already
resolved `user_agent` parameter, which is the one point where the single and
bulk parameter lists differ. -/
def eventRowOf (ev : JVal) (ua : JVal) (now : Nat) (id : Nat) : EventRow :=
  let occurredAt := occurredAtOf ev now
  { id := id
    event_id := (jget ev "event_id").getD .null
    event_name := (jget ev "event_name").getD .null
    timestamp := nullish (jget ev "timestamp") occurredAt
    client_id := (jget ev "client_id").getD .null
    session_id := (jget ev "session_id").getD .null
    page_location := orNull (jget ev "page_location")
    user_agent := ua
    occurred_at := occurredAt
    campaign := orNull (some (campaignOf ev))
    ecommerce := orNull (jget ev "ecommerce")
    raw_payload := ev }

/-- The `user_agent` parameter of the single-event insert:
`ev.user_agent || req.headers["user-agent"] || null`. -/
def singleUserAgent (ev : JVal) (ctx : ReqCtx) : JVal :=
  jsOr (jget ev "user_agent") (strOr ctx.userAgent .null)

/-- The `user_id` parameter of the event-driven user upsert:
`ev.identify?.user_id || null`. -/
def evIdentifyUserId (ev : JVal) : JVal :=
  orNull (jgetOpt (jget ev "identify") "user_id")

/-- The `email_sha256` parameter of the event-driven user upsert. -/
def evIdentifyEmail (ev : JVal) : JVal :=
  orNull (jgetOpt (jget ev "identify") "email_sha256")

/-- The `phone_sha256` parameter of the event-driven user upsert. -/
def evIdentifyPhone (ev : JVal) : JVal :=
  orNull (jgetOpt (jget ev "identify") "phone_sha256")

/-- The `DO UPDATE SET` clause of the "garantir usuário" upsert of
`POST /events`: refresh `last_seen`, `COALESCE` the three resolved-identity
columns, leave `traits` untouched. -/
def userEventUpdate (ev : JVal) (now : Nat) (u : UserRow) : UserRow :=
  { u with
    last_seen := .num now
    user_id := coalesce (evIdentifyUserId ev) u.user_id
    email_sha256 := coalesce (evIdentifyEmail ev) u.email_sha256
    phone_sha256 := coalesce (evIdentifyPhone ev) u.phone_sha256 }

/-- Source: the "garantir usuário" upsert of `POST /events` — insert the
user with current `last_seen` and the (possibly null) `identify` hashes; on
conflict apply `userEventUpdate`. -/
def upsertUserFromEvent (db : DB) (ev : JVal) (now : Nat) : DB :=
  let cid := (jget ev "client_id").getD .null
  { db with
    users := upsertBy (fun u => u.client_id = cid)
      (userEventUpdate ev now)
      { client_id := cid, traits := jsOr (jget ev "traits") .objNil,
        last_seen := .num now, user_id := evIdentifyUserId ev,
        email_sha256 := evIdentifyEmail ev, phone_sha256 := evIdentifyPhone ev }
      db.users }

/-- The `DO UPDATE SET` clause of the "garantir sessão" upsert of
`POST /events`: only `client_id` is overwritten. -/
def sessionEventUpdate (ev : JVal) (s : SessionRow) : SessionRow :=
  { s with client_id := (jget ev "client_id").getD .null }

/-- Source: the "garantir sessão" upsert of `POST /events` — insert the
session with `first_page` and `last_page` both set to the (possibly null)
page location; on conflict apply `sessionEventUpdate`. -/
def upsertSessionFromEvent (db : DB) (ev : JVal) (now : Nat) : DB :=
  let sid := (jget ev "session_id").getD .null
  let startedAt :=
    if truthy (jget ev "started_at") then (jget ev "started_at").getD .null
    else .num now
  let page := orNull (jget ev "page_location")
  { db with
    sessions := upsertBy (fun s => s.session_id = sid)
      (sessionEventUpdate ev)
      { session_id := sid, client_id := (jget ev "client_id").getD .null,
        started_at := startedAt, first_page := page, last_page := page }
      db.sessions }

/-- The `DO UPDATE SET` clause of `POST /users`: wholesale `traits` and
`last_seen` overwrite, `COALESCE` on the three resolved-identity columns. -/
def userPostUpdate (body : JVal) (now : Nat) (u : UserRow) : UserRow :=
  { u with
    traits := jsOr (jget body "traits") .objNil
    last_seen := jsOr (jget body "last_seen") (.num now)
    user_id := coalesce (orNull (jget body "user_id")) u.user_id
    email_sha256 := coalesce (orNull (jget body "email_sha256")) u.email_sha256
    phone_sha256 := coalesce (orNull (jget body "phone_sha256")) u.phone_sha256 }

/-- Source: `POST /users` — full upsert; on conflict apply
`userPostUpdate`. -/
def postUsers (body : JVal) (now : Nat) (db : DB) : DB :=
  let cid := (jget body "client_id").getD .null
  { db with
    users := upsertBy (fun u => u.client_id = cid)
      (userPostUpdate body now)
      { client_id := cid, traits := jsOr (jget body "traits") .objNil,
        last_seen := jsOr (jget body "last_seen") (.num now),
        user_id := orNull (jget body "user_id"),
        email_sha256 := orNull (jget body "email_sha256"),
        phone_sha256 := orNull (jget body "phone_sha256") }
      db.users }

/-- The `DO UPDATE SET` clause of `POST /sessions`: overwrite `client_id`,
keep `first_page` sticky (`COALESCE(old.first_page, EXCLUDED.first_page)`),
take the freshest non-null `last_page`
(`COALESCE(EXCLUDED.last_page, old.last_page)`). -/
def sessionPostUpdate (body : JVal) (s : SessionRow) : SessionRow :=
  { s with
    client_id := (jget body "client_id").getD .null
    first_page := coalesce s.first_page (orNull (jget body "first_page"))
    last_page := coalesce (orNull (jget body "last_page")) s.last_page }

/-- Source: `POST /sessions` — upsert; on conflict apply
`sessionPostUpdate`. -/
def postSessions (body : JVal) (now : Nat) (db : DB) : DB :=
  let sid := (jget body "session_id").getD .null
  { db with
    sessions := upsertBy (fun s => s.session_id = sid)
      (sessionPostUpdate body)
      { session_id := sid, client_id := (jget body "client_id").getD .null,
        started_at := jsOr (jget body "started_at") (.num now),
        first_page := orNull (jget body "first_page"),
        last_page := orNull (jget body "last_page") }
      db.sessions }

/-- The database state after the two guarded pool-side upserts of
`POST /events` ("garantir usuário", "garantir sessão"), i.e. immediately
before `BEGIN`; each upsert runs only when the event carries the relevant
identifier. -/
def preTxnDb (db : DB) (ev : JVal) (now : Nat) : DB :=
  let db1 :=
    if truthy (jget ev "client_id") then upsertUserFromEvent db ev now
    else db
  if truthy (jget ev "session_id") then upsertSessionFromEvent db1 ev now
  else db1

/-- Whole-process state: the database and the module-level dedupe cache. -/
structure ServerState where
  db : DB
  dedupe : Dedupe
  deriving DecidableEq, Repr

/-- Fault oracle for the single-event transaction: whether the event insert
and/or the metadata insert raises. -/
structure Fault where
  eventInsertFails : Bool
  metaInsertFails : Bool
  deriving DecidableEq, Repr

/-- HTTP responses the embedded handlers produce.  `invalid` is the 400
`invalid_event` body, `dbError` the 500 `db_error` body, `okStored` the
`\x7bok, id, warns\x7d` body, `deduped` the `\x7bok, deduped\x7d` body and
`okIngested` the bulk `\x7bok, ingested\x7d` body. -/
inductive Response where
  | invalid (errs warns : List String)
  | deduped
  | okStored (id : Nat) (warns : List String)
  | okIngested (n : Nat)
  | dbError
  deriving DecidableEq, Repr

/-- Source: `POST /events` (api/index.ts).  Validate, dedupe, upsert user and
session on the shared pool, then run the event + metadata inserts inside one
`BEGIN`/`COMMIT`; any fault inside the transaction rolls the database back to
its pre-`BEGIN` state and answers `db_error`. -/
def postEvent (ev : JVal) (ctx : ReqCtx) (now : Nat) (st : ServerState)
    (f : Fault) : Response × ServerState :=
  let v := validateEvent ev
  if v.1 ≠ [] then (.invalid v.1 v.2, st)
  else
    let s := shouldStore ev now st.dedupe
    if ¬ s.1 then (.deduped, { st with dedupe := s.2 })
    else
      let db2 := preTxnDb st.db ev now
      if f.eventInsertFails then (.dbError, { db := db2, dedupe := s.2 })
      else
        let id := db2.nextEventId
        let db3 :=
          { db2 with
            events := db2.events ++ [eventRowOf ev (singleUserAgent ev ctx) now id]
            nextEventId := id + 1 }
        if f.metaInsertFails then
          (.dbError, { db := { db2 with nextEventId := id + 1 }, dedupe := s.2 })
        else
          let db4 := { db3 with metadata := db3.metadata ++ [metaRowOf ctx id] }
          (.okStored id v.2, { db := db4, dedupe := s.2 })

/-- Source: the "upsert user minimal" of `POST /events/bulk` — only
`client_id` and `last_seen` are supplied (other columns default to SQL
`NULL` on insert); on conflict only `last_seen` is refreshed. -/
def upsertUserMinimal (db : DB) (ev : JVal) (now : Nat) : DB :=
  let cid := (jget ev "client_id").getD .null
  { db with
    users := upsertBy (fun u => u.client_id = cid)
      (fun u => { u with last_seen := .num now })
      { client_id := cid, traits := .null, last_seen := .num now,
        user_id := .null, email_sha256 := .null, phone_sha256 := .null }
      db.users }

/-- Source: the "upsert session minimal" of `POST /events/bulk` — only
`session_id`, `client_id` and `started_at` are supplied; on conflict only
`client_id` is updated. -/
def upsertSessionMinimal (db : DB) (ev : JVal) (now : Nat) : DB :=
  let sid := (jget ev "session_id").getD .null
  let cid := (jget ev "client_id").getD .null
  { db with
    sessions := upsertBy (fun s => s.session_id = sid)
      (fun s => { s with client_id := cid })
      { session_id := sid, client_id := cid, started_at := .num now,
        first_page := .null, last_page := .null }
      db.sessions }

/-- Fault oracle for the bulk transaction: `itemFails` says, by batch
position, whether that item's event insert raises; `metaInsertFails` whether
the aggregate metadata insert raises. -/
structure BulkFault where
  itemFails : List Bool
  metaInsertFails : Bool
  deriving DecidableEq, Repr

/-- The item loop of `POST /events/bulk`, inside the transaction: items with
hard validation errors or a duplicate fingerprint are skipped with
`continue`; surviving items get the minimal upserts and the event insert.  A
raising insert aborts the loop; the dedupe cache is module-level state, so
its updates survive the abort (hence the `Except` carries it out). -/
def bulkLoop (itemFails : List Bool) (now : Nat) :
    List JVal → Nat → DB → Dedupe → Nat → Except Dedupe (DB × Dedupe × Nat)
  | [], _, db, dd, ok => .ok (db, dd, ok)
  | ev :: rest, i, db, dd, ok =>
    if (validateEvent ev).1 ≠ [] then bulkLoop itemFails now rest (i + 1) db dd ok
    else
      let s := shouldStore ev now dd
      if ¬ s.1 then bulkLoop itemFails now rest (i + 1) db s.2 ok
      else
        let db1 :=
          if truthy (jget ev "client_id") then upsertUserMinimal db ev now
          else db
        let db2 :=
          if truthy (jget ev "session_id") then upsertSessionMinimal db1 ev now
          else db1
        if itemFails.getD i false then .error s.2
        else
          let id := db2.nextEventId
          let db3 :=
            { db2 with
              events := db2.events ++ [eventRowOf ev (orNull (jget ev "user_agent")) now id]
              nextEventId := id + 1 }
          bulkLoop itemFails now rest (i + 1) db3 s.2 (ok + 1)

/-- The aggregate metadata row of a bulk request with the sentinel
`pixel_event_id = 0`. -/
def bulkMetaRowOf (ctx : ReqCtx) : MetaRow :=
  { metaRowOf ctx 0 with pixel_event_id := 0 }

/-- Source: `POST /events/bulk` (api/index.ts).  An empty batch returns
`ingested: 0` before touching storage; otherwise the whole loop runs inside
one `BEGIN`/`COMMIT`, a metadata row is added when at least one item was
ingested, and any raising insert rolls the database back to the pre-`BEGIN`
state (we do not model how many serial ids a rolled-back bulk transaction
consumed — no claim mentions ids of bulk-inserted events). -/
def postBulk (events : List JVal) (ctx : ReqCtx) (now : Nat)
    (st : ServerState) (f : BulkFault) : Response × ServerState :=
  if events = [] then (.okIngested 0, st)
  else
    match bulkLoop f.itemFails now events 0 st.db st.dedupe 0 with
    | .error dd => (.dbError, { db := st.db, dedupe := dd })
    | .ok (db', dd, ok) =>
      if 0 < ok then
        if f.metaInsertFails then (.dbError, { db := st.db, dedupe := dd })
        else
          (.okIngested ok,
            { db := { db' with metadata := db'.metadata ++ [bulkMetaRowOf ctx] },
              dedupe := dd })
      else (.okIngested ok, { db := db', dedupe := dd })

/-- A request context with no interesting headers, used by the concrete
scenarios. -/
def ctx0 : ReqCtx :=
  { userAgent := none, xForwardedFor := none, remoteAddress := none,
    requestId := none, headersJson := "\x7b\x7d" }

/-- The empty database (serial counter starts at 1 as a PostgreSQL serial
does). -/
def emptyDB : DB :=
  { users := [], sessions := [], events := [], metadata := [], nextEventId := 1 }

/-- Fresh process state: empty database, empty dedupe cache. -/
def st0 : ServerState := { db := emptyDB, dedupe := [] }

/-- No storage fault in the single-event transaction. -/
def noFault : Fault := { eventInsertFails := false, metaInsertFails := false }

/-- A valid page-view event `A`. -/
def evA : JVal :=
  .obj [("event_id", .str "A"), ("event_name", .str "page_view"),
        ("client_id", .str "c1"), ("session_id", .str "s1")]

/-- An invalid event `B` (missing `event_id`). -/
def evB : JVal :=
  .obj [("event_name", .str "page_view"), ("client_id", .str "c1"),
        ("session_id", .str "s1")]

/-- A valid page-view event `C`. -/
def evC : JVal :=
  .obj [("event_id", .str "C"), ("event_name", .str "page_view"),
        ("client_id", .str "c2"), ("session_id", .str "s2")]

/-! ### Helper lemmas -/

theorem upsertBy_mem_update {α : Type} (hit : α → Bool) (upd : α → α) (ins : α)
    (l : List α) (u : α) (hu : u ∈ l) (hh : hit u = true) :
    upd u ∈ upsertBy hit upd ins l := by
  unfold upsertBy
  rw [if_pos (List.any_eq_true.mpr ⟨u, hu, hh⟩)]
  exact List.mem_map.mpr ⟨u, hu, by simp [hh]⟩

theorem upsertUserFromEvent_events (db : DB) (ev : JVal) (now : Nat) :
    (upsertUserFromEvent db ev now).events = db.events := rfl

theorem upsertSessionFromEvent_events (db : DB) (ev : JVal) (now : Nat) :
    (upsertSessionFromEvent db ev now).events = db.events := rfl

theorem preTxnDb_events (db : DB) (ev : JVal) (now : Nat) :
    (preTxnDb db ev now).events = db.events := by
  simp only [preTxnDb]
  split <;> split <;> rfl

theorem preTxnDb_metadata (db : DB) (ev : JVal) (now : Nat) :
    (preTxnDb db ev now).metadata = db.metadata := by
  simp only [preTxnDb]
  split <;> split <;> rfl

theorem preTxnDb_nextEventId (db : DB) (ev : JVal) (now : Nat) :
    (preTxnDb db ev now).nextEventId = db.nextEventId := by
  simp only [preTxnDb]
  split <;> split <;> rfl

theorem postEvent_invalid (ev : JVal) (ctx : ReqCtx) (now : Nat)
    (st : ServerState) (f : Fault) (h : (validateEvent ev).1 ≠ []) :
    postEvent ev ctx now st f =
      (.invalid (validateEvent ev).1 (validateEvent ev).2, st) := by
  simp [postEvent, h]

theorem postEvent_deduped (ev : JVal) (ctx : ReqCtx) (now : Nat)
    (st : ServerState) (f : Fault) (hv : (validateEvent ev).1 = [])
    (hs : (shouldStore ev now st.dedupe).1 = false) :
    postEvent ev ctx now st f =
      (.deduped, { st with dedupe := (shouldStore ev now st.dedupe).2 }) := by
  simp [postEvent, hv, hs]

theorem postEvent_eventFault (ev : JVal) (ctx : ReqCtx) (now : Nat)
    (st : ServerState) (f : Fault) (hv : (validateEvent ev).1 = [])
    (hs : (shouldStore ev now st.dedupe).1 = true)
    (hf : f.eventInsertFails = true) :
    postEvent ev ctx now st f =
      (.dbError,
        { db := preTxnDb st.db ev now,
          dedupe := (shouldStore ev now st.dedupe).2 }) := by
  simp [postEvent, hv, hs, hf]

theorem postEvent_metaFault (ev : JVal) (ctx : ReqCtx) (now : Nat)
    (st : ServerState) (f : Fault) (hv : (validateEvent ev).1 = [])
    (hs : (shouldStore ev now st.dedupe).1 = true)
    (he : f.eventInsertFails = false) (hm : f.metaInsertFails = true) :
    postEvent ev ctx now st f =
      (.dbError,
        { db := { preTxnDb st.db ev now with
                  nextEventId := (preTxnDb st.db ev now).nextEventId + 1 },
          dedupe := (shouldStore ev now st.dedupe).2 }) := by
  simp [postEvent, hv, hs, he, hm]

theorem postEvent_success (ev : JVal) (ctx : ReqCtx) (now : Nat)
    (st : ServerState) (f : Fault) (hv : (validateEvent ev).1 = [])
    (hs : (shouldStore ev now st.dedupe).1 = true)
    (he : f.eventInsertFails = false) (hm : f.metaInsertFails = false) :
    postEvent ev ctx now st f =
      (.okStored (preTxnDb st.db ev now).nextEventId (validateEvent ev).2,
        { db := { preTxnDb st.db ev now with
                  events := (preTxnDb st.db ev now).events ++
                    [eventRowOf ev (singleUserAgent ev ctx) now
                      (preTxnDb st.db ev now).nextEventId]
                  nextEventId := (preTxnDb st.db ev now).nextEventId + 1
                  metadata := (preTxnDb st.db ev now).metadata ++
                    [metaRowOf ctx (preTxnDb st.db ev now).nextEventId] },
          dedupe := (shouldStore ev now st.dedupe).2 }) := by
  simp [postEvent, hv, hs, he, hm]


theorem shouldStore_mem_of_true (ev : JVal) (now : Nat) (dd : Dedupe)
    (h : (shouldStore ev now dd).1 = true) :
    (dedupeKey ev, now) ∈ (shouldStore ev now dd).2 := by
  by_cases hc : ((dd.filter (notExpired now)).any
      (fun kv => kv.1 = dedupeKey ev)) = true
  · simp [shouldStore, hc] at h
  · simp [shouldStore, hc]

theorem shouldStore_false_of_mem (ev : JVal) (now t : Nat) (dd : Dedupe)
    (hm : (dedupeKey ev, t) ∈ dd) (ht : now - t ≤ 60000) :
    (shouldStore ev now dd).1 = false := by
  have hmem : (dedupeKey ev, t) ∈ dd.filter (notExpired now) :=
    List.mem_filter.mpr ⟨hm, (notExpired_eq_true now _).mpr ht⟩
  have hany : ((dd.filter (notExpired now)).any
      (fun kv => kv.1 = dedupeKey ev)) = true :=
    List.any_eq_true.mpr ⟨_, hmem, by simp⟩
  simp [shouldStore, hany]

theorem shouldStore_evicted_of_mem (ev : JVal) (now t : Nat) (dd : Dedupe)
    (hm : (dedupeKey ev, t) ∈ dd) (ht : now - t ≤ 60000) :
    (shouldStore ev now dd).2 = dd.filter (notExpired now) := by
  have hmem : (dedupeKey ev, t) ∈ dd.filter (notExpired now) :=
    List.mem_filter.mpr ⟨hm, (notExpired_eq_true now _).mpr ht⟩
  have hany : ((dd.filter (notExpired now)).any
      (fun kv => kv.1 = dedupeKey ev)) = true :=
    List.any_eq_true.mpr ⟨_, hmem, by simp⟩
  simp [shouldStore, hany]

theorem shouldStore_true_of_expired (ev : JVal) (now : Nat) (dd : Dedupe)
    (h : ∀ t, (dedupeKey ev, t) ∈ dd → now - t > 60000) :
    (shouldStore ev now dd).1 = true := by
  have hany : ((dd.filter (notExpired now)).any
      (fun kv => kv.1 = dedupeKey ev)) = false := by
    rw [List.any_eq_false]
    rintro ⟨k, t⟩ hkv
    obtain ⟨hin, hfresh⟩ := List.mem_filter.mp hkv
    simp only [decide_eq_true_eq]
    rintro rfl
    have hgt := h t hin
    have hle := (notExpired_eq_true now _).mp hfresh
    simp at hle
    omega
  simp [shouldStore, hany]

theorem shouldStore_key_time_unique (ev : JVal) (now : Nat) (dd : Dedupe)
    (h : (shouldStore ev now dd).1 = true) (t : Nat)
    (hm : (dedupeKey ev, t) ∈ (shouldStore ev now dd).2) : t = now := by
  by_cases hc : ((dd.filter (notExpired now)).any
      (fun kv => kv.1 = dedupeKey ev)) = true
  · simp [shouldStore, hc] at h
  · simp only [shouldStore, hc] at hm
    rw [if_neg (by simp [hc])] at hm
    rcases List.mem_append.mp hm with hin | hin
    · exact absurd (List.any_eq_true.mpr ⟨_, hin, by simp⟩) hc
    · simpa using (List.mem_singleton.mp hin)

theorem shouldStore_entries_fresh (ev : JVal) (now : Nat) (dd : Dedupe)
    (kv : String × Nat) (hm : kv ∈ (shouldStore ev now dd).2) :
    now - kv.2 ≤ 60000 := by
  by_cases hc : ((dd.filter (notExpired now)).any
      (fun kv => kv.1 = dedupeKey ev)) = true
  · simp only [shouldStore, hc] at hm
    rw [if_pos (by simp [hc])] at hm
    exact (notExpired_eq_true now kv).mp (List.mem_filter.mp hm).2
  · simp only [shouldStore, hc] at hm
    rw [if_neg (by simp [hc])] at hm
    rcases List.mem_append.mp hm with hin | hin
    · exact (notExpired_eq_true now kv).mp (List.mem_filter.mp hin).2
    · have := List.mem_singleton.mp hin
      subst this
      omega

/-- A valid event carrying no `session_id` (for the soft-warning path). -/
def evD : JVal :=
  .obj [("event_id", .str "D"), ("event_name", .str "page_view"),
        ("client_id", .str "c9")]

/-- A purchase event whose `ecommerce.value` is absent. -/
def evPurchaseNoValue : JVal :=
  .obj [("event_id", .str "P1"), ("event_name", .str "purchase"),
        ("client_id", .str "c1"), ("session_id", .str "s1"),
        ("ecommerce", .obj [("currency", .str "BRL")])]

/-! ### C7 -/

/-- C7: an event missing `event_id`, `event_name` or `client_id` produces the
corresponding hard error code; a nonempty hard-error list makes `POST /events`
answer 400 with the error and warning lists and leave all state untouched;
an event missing only `session_id` gets the soft warning
`recommend:session_id` and is still stored. -/
theorem required_field_validation :
    (∀ ev : JVal, truthy (jget ev "event_id") = false →
      "missing:event_id" ∈ (validateEvent ev).1) ∧
    (∀ ev : JVal, truthy (jget ev "event_name") = false →
      "missing:event_name" ∈ (validateEvent ev).1) ∧
    (∀ ev : JVal, truthy (jget ev "client_id") = false →
      "missing:client_id" ∈ (validateEvent ev).1) ∧
    (∀ (ev : JVal) (ctx : ReqCtx) (now : Nat) (st : ServerState) (f : Fault),
      (validateEvent ev).1 ≠ [] →
      postEvent ev ctx now st f =
        (.invalid (validateEvent ev).1 (validateEvent ev).2, st)) ∧
    (∀ ev : JVal, truthy (jget ev "session_id") = false →
      (validateEvent ev).2 = ["recommend:session_id"]) ∧
    (∀ (ev : JVal) (ctx : ReqCtx) (now : Nat) (st : ServerState),
      (validateEvent ev).1 = [] → truthy (jget ev "session_id") = false →
      (shouldStore ev now st.dedupe).1 = true →
      (postEvent ev ctx now st noFault).1 =
        .okStored st.db.nextEventId ["recommend:session_id"] ∧
      ((postEvent ev ctx now st noFault).2).db.events =
        st.db.events ++
          [eventRowOf ev (singleUserAgent ev ctx) now st.db.nextEventId]) := by
  refine ⟨?_, ?_, ?_, ?_, ?_, ?_⟩
  · intro ev h
    simp [validateEvent, h]
  · intro ev h
    simp [validateEvent, h]
  · intro ev h
    simp [validateEvent, h]
  · intro ev ctx now st f h
    exact postEvent_invalid ev ctx now st f h
  · intro ev h
    simp [validateEvent, h]
  · intro ev ctx now st hv hsess hd
    rw [postEvent_success ev ctx now st noFault hv hd rfl rfl]
    constructor
    · simp [preTxnDb_nextEventId, validateEvent, hsess]
    · simp [preTxnDb_events, preTxnDb_nextEventId]

/-- Witness for C7 at concrete inputs. -/
theorem required_field_validation_witness :
    "missing:event_id" ∈ (validateEvent evB).1 ∧
    postEvent evB ctx0 5 st0 noFault =
      (.invalid (validateEvent evB).1 (validateEvent evB).2, st0) ∧
    (validateEvent evD).2 = ["recommend:session_id"] ∧
    (postEvent evD ctx0 5 st0 noFault).1 =
      .okStored st0.db.nextEventId ["recommend:session_id"] :=
  ⟨required_field_validation.1 evB (by decide),
   required_field_validation.2.2.2.1 evB ctx0 5 st0 noFault (by decide),
   required_field_validation.2.2.2.2.1 evD (by decide),
   (required_field_validation.2.2.2.2.2 evD ctx0 5 st0 (by decide) (by decide)
     (by decide)).1⟩

/-! ### C8 -/

/-- C8: for an event named `"purchase"`, validation emits exactly one
`missing:ecommerce.value` code unless `ecommerce.value` is a number and
exactly one `missing:ecommerce.currency` code unless `ecommerce.currency` is
a string; any nonempty hard-error list prevents storage (the handler answers
400 and leaves all state untouched). -/
theorem purchase_validation :
    (∀ ev : JVal, jget ev "event_name" = some (.str "purchase") →
      ((validateEvent ev).1.count "missing:ecommerce.value" =
        (if typeofIsNumber (jgetOpt (jget ev "ecommerce") "value") then 0 else 1)) ∧
      ((validateEvent ev).1.count "missing:ecommerce.currency" =
        (if typeofIsString (jgetOpt (jget ev "ecommerce") "currency") then 0 else 1)) ∧
      (typeofIsNumber (jgetOpt (jget ev "ecommerce") "value") = false →
        "missing:ecommerce.value" ∈ (validateEvent ev).1) ∧
      (typeofIsString (jgetOpt (jget ev "ecommerce") "currency") = false →
        "missing:ecommerce.currency" ∈ (validateEvent ev).1)) ∧
    (∀ (ev : JVal) (ctx : ReqCtx) (now : Nat) (st : ServerState) (f : Fault),
      (validateEvent ev).1 ≠ [] →
      postEvent ev ctx now st f =
        (.invalid (validateEvent ev).1 (validateEvent ev).2, st)) := by
  constructor
  · intro ev h
    have hname : truthy (jget ev "event_name") = true := by rw [h]; rfl
    by_cases h1 : truthy (jget ev "event_id") = true <;>
    by_cases h3 : truthy (jget ev "client_id") = true <;>
    by_cases h4 : typeofIsNumber (jgetOpt (jget ev "ecommerce") "value") = true <;>
    by_cases h5 : typeofIsString (jgetOpt (jget ev "ecommerce") "currency") = true <;>
      simp_all [validateEvent]
  · intro ev ctx now st f h
    exact postEvent_invalid ev ctx now st f h

/-- Witness for C8: a purchase with no numeric value fails with exactly the
value code and is rejected without state change. -/
theorem purchase_validation_witness :
    ((validateEvent evPurchaseNoValue).1.count "missing:ecommerce.value" =
      (if typeofIsNumber (jgetOpt (jget evPurchaseNoValue "ecommerce") "value")
        then 0 else 1)) ∧
    ("missing:ecommerce.value" ∈ (validateEvent evPurchaseNoValue).1) ∧
    postEvent evPurchaseNoValue ctx0 9 st0 noFault =
      (.invalid (validateEvent evPurchaseNoValue).1
        (validateEvent evPurchaseNoValue).2, st0) :=
  ⟨(purchase_validation.1 evPurchaseNoValue (by decide)).1,
   (purchase_validation.1 evPurchaseNoValue (by decide)).2.2.1 (by decide),
   purchase_validation.2 evPurchaseNoValue ctx0 9 st0 noFault (by decide)⟩

/-! ### C3 -/

/-- C3: the dedupe window — a first-seen fingerprint is registered with its
check time; a second submission whose fingerprint is in the cache within
60000 ms of registration is answered `deduped` with no database change; every
dedupe check first evicts entries older than the window (all surviving
entries are within it); two same-fingerprint submissions more than the
window apart are both stored; and the fingerprint depends only on
`event_name` and `event_id`, never on the payload. -/
theorem dedupe_time_window :
    (∀ (ev : JVal) (now : Nat) (dd : Dedupe), (shouldStore ev now dd).1 = true →
      (dedupeKey ev, now) ∈ (shouldStore ev now dd).2) ∧
    (∀ (ev : JVal) (ctx : ReqCtx) (t1 t2 : Nat) (st : ServerState) (f : Fault),
      (validateEvent ev).1 = [] → (dedupeKey ev, t1) ∈ st.dedupe →
      t2 - t1 ≤ 60000 →
      (postEvent ev ctx t2 st f).1 = .deduped ∧
      ((postEvent ev ctx t2 st f).2).db = st.db) ∧
    (∀ (ev : JVal) (now : Nat) (dd : Dedupe) (kv : String × Nat),
      kv ∈ (shouldStore ev now dd).2 → now - kv.2 ≤ 60000) ∧
    (∀ (ev : JVal) (ctx : ReqCtx) (t1 t2 : Nat) (st : ServerState),
      (validateEvent ev).1 = [] → (shouldStore ev t1 st.dedupe).1 = true →
      60000 < t2 - t1 →
      (postEvent ev ctx t1 st noFault).1 =
        .okStored st.db.nextEventId (validateEvent ev).2 ∧
      (postEvent ev ctx t2 ((postEvent ev ctx t1 st noFault).2) noFault).1 =
        .okStored (((postEvent ev ctx t1 st noFault).2).db.nextEventId)
          (validateEvent ev).2) ∧
    (∀ ev1 ev2 : JVal,
      jget ev1 "event_name" = jget ev2 "event_name" →
      jget ev1 "event_id" = jget ev2 "event_id" →
      dedupeKey ev1 = dedupeKey ev2) := by
  refine ⟨?_, ?_, ?_, ?_, ?_⟩
  · exact shouldStore_mem_of_true
  · intro ev ctx t1 t2 st f hv hm ht
    have hs := shouldStore_false_of_mem ev t2 t1 st.dedupe hm ht
    rw [postEvent_deduped ev ctx t2 st f hv hs]
    exact ⟨rfl, rfl⟩
  · exact shouldStore_entries_fresh
  · intro ev ctx t1 t2 st hv hd1 ht
    have hfirst := postEvent_success ev ctx t1 st noFault hv hd1 rfl rfl
    refine ⟨?_, ?_⟩
    · rw [hfirst, preTxnDb_nextEventId]
    · have hdd : ((postEvent ev ctx t1 st noFault).2).dedupe =
          (shouldStore ev t1 st.dedupe).2 := by rw [hfirst]
      have hd2 : (shouldStore ev t2
          ((postEvent ev ctx t1 st noFault).2).dedupe).1 = true := by
        rw [hdd]
        apply shouldStore_true_of_expired
        intro t hmem
        have := shouldStore_key_time_unique ev t1 st.dedupe hd1 t hmem
        omega
      rw [postEvent_success ev ctx t2 _ noFault hv hd2 rfl rfl,
        preTxnDb_nextEventId]
  · intro ev1 ev2 hn hi
    simp [dedupeKey, hn, hi]

/-- A same-fingerprint duplicate of `evA` with a different payload
(`page_location` differs), submitted inside the window. -/
def evADup : JVal :=
  .obj [("event_id", .str "A"), ("event_name", .str "page_view"),
        ("client_id", .str "c7"), ("session_id", .str "s7"),
        ("page_location", .str "/other")]

/-- Witness for C3 at concrete inputs. -/
theorem dedupe_time_window_witness :
    (dedupeKey evA, 100) ∈ (shouldStore evA 100 []).2 ∧
    ((postEvent evADup ctx0 200
        { db := emptyDB, dedupe := [(dedupeKey evADup, 100)] } noFault).1 =
      .deduped) ∧
    dedupeKey evADup = dedupeKey evA :=
  ⟨dedupe_time_window.1 evA 100 [] (by decide),
   (dedupe_time_window.2.1 evADup ctx0 100 200
      { db := emptyDB, dedupe := [(dedupeKey evADup, 100)] } noFault
      (by decide) (by simp) (by decide)).1,
   dedupe_time_window.2.2.2.2 evADup evA (by decide) (by decide)⟩

/-! ### C1 -/

/-- C1: once a single event passes validation and dedupe, the event insert
and the metadata insert are one all-or-nothing unit: with no fault both rows
are appended and the response carries the newly assigned event id together
with the warning list; a fault in either insert yields `db_error` with
neither an event row nor a metadata row added, and that storage failure is a
different response from every validation failure. -/
theorem single_event_atomicity :
    ∀ (ev : JVal) (ctx : ReqCtx) (now : Nat) (st : ServerState) (f : Fault),
      (validateEvent ev).1 = [] →
      (shouldStore ev now st.dedupe).1 = true →
      (f.eventInsertFails = false ∧ f.metaInsertFails = false →
        (postEvent ev ctx now st f).1 =
          .okStored st.db.nextEventId (validateEvent ev).2 ∧
        ((postEvent ev ctx now st f).2).db.events =
          st.db.events ++
            [eventRowOf ev (singleUserAgent ev ctx) now st.db.nextEventId] ∧
        ((postEvent ev ctx now st f).2).db.metadata =
          st.db.metadata ++ [metaRowOf ctx st.db.nextEventId]) ∧
      ((f.eventInsertFails = true ∨ f.metaInsertFails = true) →
        (postEvent ev ctx now st f).1 = .dbError ∧
        ((postEvent ev ctx now st f).2).db.events = st.db.events ∧
        ((postEvent ev ctx now st f).2).db.metadata = st.db.metadata) ∧
      (∀ e w : List String, (Response.dbError ≠ Response.invalid e w)) := by
  intro ev ctx now st f hv hd
  refine ⟨?_, ?_, ?_⟩
  · rintro ⟨he, hm⟩
    rw [postEvent_success ev ctx now st f hv hd he hm]
    refine ⟨by rw [preTxnDb_nextEventId], ?_, ?_⟩
    · simp [preTxnDb_events, preTxnDb_nextEventId]
    · simp [preTxnDb_metadata, preTxnDb_nextEventId]
  · intro hf
    by_cases he : f.eventInsertFails = true
    · rw [postEvent_eventFault ev ctx now st f hv hd he]
      exact ⟨rfl, preTxnDb_events st.db ev now, preTxnDb_metadata st.db ev now⟩
    · have he' : f.eventInsertFails = false := by
        cases hfe : f.eventInsertFails
        · rfl
        · exact absurd hfe he
      have hm : f.metaInsertFails = true := by
        rcases hf with h | h
        · exact absurd h he
        · exact h
      rw [postEvent_metaFault ev ctx now st f hv hd he' hm]
      exact ⟨rfl, preTxnDb_events st.db ev now, preTxnDb_metadata st.db ev now⟩
  · intro e w
    simp

/-- Witness for C1: `evA` stored from the fresh state, then rejected with a
rolled-back store under a forced metadata fault. -/
theorem single_event_atomicity_witness :
    ((postEvent evA ctx0 100 st0 noFault).1 =
      .okStored st0.db.nextEventId (validateEvent evA).2) ∧
    ((postEvent evA ctx0 100 st0
        { eventInsertFails := false, metaInsertFails := true }).1 = .dbError) ∧
    ((postEvent evA ctx0 100 st0
        { eventInsertFails := false, metaInsertFails := true }).2).db.events =
      st0.db.events :=
  ⟨((single_event_atomicity evA ctx0 100 st0 noFault (by decide) (by decide)).1
      ⟨rfl, rfl⟩).1,
   ((single_event_atomicity evA ctx0 100 st0
      { eventInsertFails := false, metaInsertFails := true } (by decide)
      (by decide)).2.1 (Or.inr rfl)).1,
   ((single_event_atomicity evA ctx0 100 st0
      { eventInsertFails := false, metaInsertFails := true } (by decide)
      (by decide)).2.1 (Or.inr rfl)).2.1⟩

/-! ### C10 -/

/-- C10: the client-identity and session upserts of `POST /events` run on the
shared pool before and outside the event transaction, so when the
transaction faults the response is `db_error`, the users and sessions tables
keep the upserted state (`preTxnDb`), and only the event and metadata tables
are unchanged.  When the event carries the identifiers, `preTxnDb` really is
the composition of the two upserts. -/
theorem upserts_outside_transaction :
    ∀ (ev : JVal) (ctx : ReqCtx) (now : Nat) (st : ServerState) (f : Fault),
      (validateEvent ev).1 = [] →
      (shouldStore ev now st.dedupe).1 = true →
      (f.eventInsertFails = true ∨ f.metaInsertFails = true) →
      (postEvent ev ctx now st f).1 = .dbError ∧
      ((postEvent ev ctx now st f).2).db.users = (preTxnDb st.db ev now).users ∧
      ((postEvent ev ctx now st f).2).db.sessions =
        (preTxnDb st.db ev now).sessions ∧
      ((postEvent ev ctx now st f).2).db.events = st.db.events ∧
      ((postEvent ev ctx now st f).2).db.metadata = st.db.metadata ∧
      (truthy (jget ev "client_id") = true →
        truthy (jget ev "session_id") = true →
        (preTxnDb st.db ev now).users =
          (upsertUserFromEvent st.db ev now).users ∧
        (preTxnDb st.db ev now).sessions =
          (upsertSessionFromEvent (upsertUserFromEvent st.db ev now) ev
            now).sessions) := by
  intro ev ctx now st f hv hd hf
  have hside : (truthy (jget ev "client_id") = true →
      truthy (jget ev "session_id") = true →
      (preTxnDb st.db ev now).users =
        (upsertUserFromEvent st.db ev now).users ∧
      (preTxnDb st.db ev now).sessions =
        (upsertSessionFromEvent (upsertUserFromEvent st.db ev now) ev
          now).sessions) := by
    intro hc hs
    simp [preTxnDb, hc, hs, upsertSessionFromEvent]
  by_cases he : f.eventInsertFails = true
  · rw [postEvent_eventFault ev ctx now st f hv hd he]
    exact ⟨rfl, rfl, rfl, preTxnDb_events st.db ev now,
      preTxnDb_metadata st.db ev now, hside⟩
  · have he' : f.eventInsertFails = false := by
      cases hfe : f.eventInsertFails
      · rfl
      · exact absurd hfe he
    have hm : f.metaInsertFails = true := by
      rcases hf with h | h
      · exact absurd h he
      · exact h
    rw [postEvent_metaFault ev ctx now st f hv hd he' hm]
    exact ⟨rfl, rfl, rfl, preTxnDb_events st.db ev now,
      preTxnDb_metadata st.db ev now, hside⟩

/-- Witness for C10: a forced event-insert fault after `evA` still leaves the
upserted user and session visible while no event row is stored. -/
theorem upserts_outside_transaction_witness :
    ((postEvent evA ctx0 100 st0
        { eventInsertFails := true, metaInsertFails := false }).1 = .dbError) ∧
    ((postEvent evA ctx0 100 st0
        { eventInsertFails := true, metaInsertFails := false }).2).db.users =
      (preTxnDb st0.db evA 100).users ∧
    ((postEvent evA ctx0 100 st0
        { eventInsertFails := true, metaInsertFails := false }).2).db.events =
      st0.db.events :=
  ⟨(upserts_outside_transaction evA ctx0 100 st0
      { eventInsertFails := true, metaInsertFails := false } (by decide)
      (by decide) (Or.inl rfl)).1,
   (upserts_outside_transaction evA ctx0 100 st0
      { eventInsertFails := true, metaInsertFails := false } (by decide)
      (by decide) (Or.inl rfl)).2.1,
   (upserts_outside_transaction evA ctx0 100 st0
      { eventInsertFails := true, metaInsertFails := false } (by decide)
      (by decide) (Or.inl rfl)).2.2.2.1⟩

/-! ### C9 -/

/-- C9: when a single-event write fails and rolls back, the fingerprint that
`shouldStore` registered stays in the cache, so a resubmission with the same
fingerprint within 60000 ms is answered `deduped` and writes nothing. -/
theorem failed_write_resubmission_deduped :
    ∀ (ev ev2 : JVal) (ctx ctx2 : ReqCtx) (t1 t2 : Nat) (st : ServerState)
      (f f2 : Fault),
      (validateEvent ev).1 = [] →
      (shouldStore ev t1 st.dedupe).1 = true →
      (f.eventInsertFails = true ∨ f.metaInsertFails = true) →
      (validateEvent ev2).1 = [] →
      dedupeKey ev2 = dedupeKey ev →
      t2 - t1 ≤ 60000 →
      (postEvent ev ctx t1 st f).1 = .dbError ∧
      ((postEvent ev ctx t1 st f).2).db.events = st.db.events ∧
      (dedupeKey ev, t1) ∈ ((postEvent ev ctx t1 st f).2).dedupe ∧
      (postEvent ev2 ctx2 t2 ((postEvent ev ctx t1 st f).2) f2).1 = .deduped ∧
      ((postEvent ev2 ctx2 t2 ((postEvent ev ctx t1 st f).2) f2).2).db =
        ((postEvent ev ctx t1 st f).2).db := by
  intro ev ev2 ctx ctx2 t1 t2 st f f2 hv hd hf hv2 hkey ht
  have hdd : ((postEvent ev ctx t1 st f).2).dedupe =
      (shouldStore ev t1 st.dedupe).2 := by
    by_cases he : f.eventInsertFails = true
    · rw [postEvent_eventFault ev ctx t1 st f hv hd he]
    · have he' : f.eventInsertFails = false := by
        cases hfe : f.eventInsertFails
        · rfl
        · exact absurd hfe he
      have hm : f.metaInsertFails = true := by
        rcases hf with h | h
        · exact absurd h he
        · exact h
      rw [postEvent_metaFault ev ctx t1 st f hv hd he' hm]
  have herr : (postEvent ev ctx t1 st f).1 = .dbError ∧
      ((postEvent ev ctx t1 st f).2).db.events = st.db.events := by
    by_cases he : f.eventInsertFails = true
    · rw [postEvent_eventFault ev ctx t1 st f hv hd he]
      exact ⟨rfl, preTxnDb_events st.db ev t1⟩
    · have he' : f.eventInsertFails = false := by
        cases hfe : f.eventInsertFails
        · rfl
        · exact absurd hfe he
      have hm : f.metaInsertFails = true := by
        rcases hf with h | h
        · exact absurd h he
        · exact h
      rw [postEvent_metaFault ev ctx t1 st f hv hd he' hm]
      exact ⟨rfl, preTxnDb_events st.db ev t1⟩
  have hmem : (dedupeKey ev, t1) ∈ ((postEvent ev ctx t1 st f).2).dedupe := by
    rw [hdd]
    exact shouldStore_mem_of_true ev t1 st.dedupe hd
  have hmem2 : (dedupeKey ev2, t1) ∈ ((postEvent ev ctx t1 st f).2).dedupe := by
    rwa [hkey]
  have hs2 : (shouldStore ev2 t2 ((postEvent ev ctx t1 st f).2).dedupe).1 =
      false :=
    shouldStore_false_of_mem ev2 t2 t1 _ hmem2 ht
  have hsecond := postEvent_deduped ev2 ctx2 t2 _ f2 hv2 hs2
  exact ⟨herr.1, herr.2, hmem, by rw [hsecond], by rw [hsecond]⟩

/-- Witness for C9: `evA` fails its write under a forced fault, and its
resubmission 30 s later is deduped. -/
theorem failed_write_resubmission_deduped_witness :
    ((postEvent evA ctx0 100 st0
        { eventInsertFails := true, metaInsertFails := false }).1 = .dbError) ∧
    ((postEvent evA ctx0 30100
        ((postEvent evA ctx0 100 st0
          { eventInsertFails := true, metaInsertFails := false }).2)
        noFault).1 = .deduped) :=
  ⟨(failed_write_resubmission_deduped evA evA ctx0 ctx0 100 30100 st0
      { eventInsertFails := true, metaInsertFails := false } noFault
      (by decide) (by decide) (Or.inl rfl) (by decide) rfl (by decide)).1,
   (failed_write_resubmission_deduped evA evA ctx0 ctx0 100 30100 st0
      { eventInsertFails := true, metaInsertFails := false } noFault
      (by decide) (by decide) (Or.inl rfl) (by decide) rfl (by decide)).2.2.2.1⟩

/-! ### C4 -/

/-- C4: on both client-identity upserts against an existing row (the
event-driven one and the explicit `POST /users` one), the resolved user id,
email hash and phone hash are coalesced — a null incoming value leaves the
stored value, a non-null one overwrites it — last-seen is overwritten on
every upsert, and the updated row really lands in the users table. -/
theorem client_identity_coalesce :
    (∀ (ev : JVal) (now : Nat) (u : UserRow),
      (evIdentifyUserId ev = .null →
        (userEventUpdate ev now u).user_id = u.user_id) ∧
      (evIdentifyUserId ev ≠ .null →
        (userEventUpdate ev now u).user_id = evIdentifyUserId ev) ∧
      (evIdentifyEmail ev = .null →
        (userEventUpdate ev now u).email_sha256 = u.email_sha256) ∧
      (evIdentifyEmail ev ≠ .null →
        (userEventUpdate ev now u).email_sha256 = evIdentifyEmail ev) ∧
      (evIdentifyPhone ev = .null →
        (userEventUpdate ev now u).phone_sha256 = u.phone_sha256) ∧
      (evIdentifyPhone ev ≠ .null →
        (userEventUpdate ev now u).phone_sha256 = evIdentifyPhone ev) ∧
      (userEventUpdate ev now u).last_seen = .num now) ∧
    (∀ (body : JVal) (now : Nat) (u : UserRow),
      (orNull (jget body "user_id") = .null →
        (userPostUpdate body now u).user_id = u.user_id) ∧
      (orNull (jget body "user_id") ≠ .null →
        (userPostUpdate body now u).user_id = orNull (jget body "user_id")) ∧
      (orNull (jget body "email_sha256") = .null →
        (userPostUpdate body now u).email_sha256 = u.email_sha256) ∧
      (orNull (jget body "email_sha256") ≠ .null →
        (userPostUpdate body now u).email_sha256 =
          orNull (jget body "email_sha256")) ∧
      (orNull (jget body "phone_sha256") = .null →
        (userPostUpdate body now u).phone_sha256 = u.phone_sha256) ∧
      (orNull (jget body "phone_sha256") ≠ .null →
        (userPostUpdate body now u).phone_sha256 =
          orNull (jget body "phone_sha256")) ∧
      (userPostUpdate body now u).last_seen =
        jsOr (jget body "last_seen") (.num now)) ∧
    (∀ (db : DB) (ev : JVal) (now : Nat) (u : UserRow),
      u ∈ db.users → u.client_id = (jget ev "client_id").getD .null →
      userEventUpdate ev now u ∈ (upsertUserFromEvent db ev now).users) ∧
    (∀ (db : DB) (body : JVal) (now : Nat) (u : UserRow),
      u ∈ db.users → u.client_id = (jget body "client_id").getD .null →
      userPostUpdate body now u ∈ (postUsers body now db).users) := by
  refine ⟨?_, ?_, ?_, ?_⟩
  · intro ev now u
    refine ⟨?_, ?_, ?_, ?_, ?_, ?_, rfl⟩ <;> intro h <;>
      simp [userEventUpdate, coalesce, h]
  · intro body now u
    refine ⟨?_, ?_, ?_, ?_, ?_, ?_, rfl⟩ <;> intro h <;>
      simp [userPostUpdate, coalesce, h]
  · intro db ev now u hu hcid
    exact upsertBy_mem_update _ _ _ db.users u hu (by simp [hcid])
  · intro db body now u hu hcid
    exact upsertBy_mem_update _ _ _ db.users u hu (by simp [hcid])

/-- An existing user row whose identity fields are already resolved. -/
def uExisting : UserRow :=
  { client_id := .str "c1", traits := .objNil, last_seen := .num 10,
    user_id := .str "u-1", email_sha256 := .str "e-hash",
    phone_sha256 := .str "p-hash" }

/-- An event for `c1` carrying no `identify` block. -/
def evNoIdentify : JVal :=
  .obj [("event_id", .str "I1"), ("event_name", .str "page_view"),
        ("client_id", .str "c1")]

/-- An event for `c1` carrying a new resolved user id. -/
def evNewIdentify : JVal :=
  .obj [("event_id", .str "I2"), ("event_name", .str "page_view"),
        ("client_id", .str "c1"),
        ("identify", .obj [("user_id", .str "u-2")])]

/-- Witness for C4: an event with no identify block keeps `u-1`; one carrying
`u-2` overwrites it; the updated row is in the table after the upsert. -/
theorem client_identity_coalesce_witness :
    (userEventUpdate evNoIdentify 99 uExisting).user_id = uExisting.user_id ∧
    (userEventUpdate evNewIdentify 99 uExisting).user_id =
      evIdentifyUserId evNewIdentify ∧
    (userEventUpdate evNoIdentify 99 uExisting).last_seen = .num 99 ∧
    userEventUpdate evNoIdentify 99 uExisting ∈
      (upsertUserFromEvent { emptyDB with users := [uExisting] } evNoIdentify
        99).users :=
  ⟨(client_identity_coalesce.1 evNoIdentify 99 uExisting).1 (by decide),
   (client_identity_coalesce.1 evNewIdentify 99 uExisting).2.1 (by decide),
   (client_identity_coalesce.1 evNoIdentify 99 uExisting).2.2.2.2.2.2,
   client_identity_coalesce.2.2.1 { emptyDB with users := [uExisting] }
     evNoIdentify 99 uExisting (by simp) (by decide)⟩

/-! ### C5 -/

/-- An existing session whose first and last page are `"/a"`. -/
def sessA : SessionRow :=
  { session_id := .str "s1", client_id := .str "c1", started_at := .num 0,
    first_page := .str "/a", last_page := .str "/a" }

/-- A database already holding `sessA`. -/
def sessionDbA : DB := { emptyDB with sessions := [sessA] }

/-- A later event for session `s1` carrying page location `"/b"`. -/
def evPageB : JVal :=
  .obj [("event_id", .str "E2"), ("event_name", .str "page_view"),
        ("client_id", .str "c1"), ("session_id", .str "s1"),
        ("page_location", .str "/b")]

/-- Counterexample to C5: the event-driven session upsert updates only
`client_id` on conflict, so a later event with page `"/b"` leaves the
session's last page at `"/a"` — last page does not reflect the most recent
write through the event path. -/
theorem session_last_page_event_counterexample :
    ((postEvent evPageB ctx0 500 { db := sessionDbA, dedupe := [] }
        noFault).2).db.sessions.map (fun s => s.last_page) = [.str "/a"] ∧
    JVal.str "/a" ≠ JVal.str "/b" ∧
    orNull (jget evPageB "page_location") = .str "/b" := by
  refine ⟨rfl, by decide, by decide⟩

/-- C5 (amended): first page is sticky in both session-upsert paths — the
event-driven upsert overwrites only the owning client id on conflict, so a
later event leaves both first page *and* last page unchanged; an explicit
`POST /sessions` upsert keeps a non-null first page and updates last page
exactly when it carries a non-null last page.  In each path the updated row
lands in the sessions table. -/
theorem session_first_page_stickiness :
    (∀ (ev : JVal) (s : SessionRow),
      (sessionEventUpdate ev s).first_page = s.first_page ∧
      (sessionEventUpdate ev s).last_page = s.last_page) ∧
    (∀ (body : JVal) (s : SessionRow), s.first_page ≠ .null →
      (sessionPostUpdate body s).first_page = s.first_page) ∧
    (∀ (body : JVal) (s : SessionRow), orNull (jget body "last_page") ≠ .null →
      (sessionPostUpdate body s).last_page = orNull (jget body "last_page")) ∧
    (∀ (db : DB) (ev : JVal) (now : Nat) (s : SessionRow),
      s ∈ db.sessions → s.session_id = (jget ev "session_id").getD .null →
      sessionEventUpdate ev s ∈ (upsertSessionFromEvent db ev now).sessions) ∧
    (∀ (db : DB) (body : JVal) (now : Nat) (s : SessionRow),
      s ∈ db.sessions → s.session_id = (jget body "session_id").getD .null →
      sessionPostUpdate body s ∈ (postSessions body now db).sessions) := by
  refine ⟨?_, ?_, ?_, ?_, ?_⟩
  · intro ev s
    exact ⟨rfl, rfl⟩
  · intro body s h
    simp [sessionPostUpdate, coalesce, h]
  · intro body s h
    simp [sessionPostUpdate, coalesce, h]
  · intro db ev now s hs hsid
    exact upsertBy_mem_update _ _ _ db.sessions s hs (by simp [hsid])
  · intro db body now s hs hsid
    exact upsertBy_mem_update _ _ _ db.sessions s hs (by simp [hsid])

/-- A `POST /sessions` body moving `s1` to last page `"/b"`. -/
def sessBodyB : JVal :=
  .obj [("session_id", .str "s1"), ("client_id", .str "c1"),
        ("last_page", .str "/b")]

/-- Witness for the amended C5 at concrete inputs. -/
theorem session_first_page_stickiness_witness :
    (sessionEventUpdate evPageB sessA).first_page = sessA.first_page ∧
    (sessionEventUpdate evPageB sessA).last_page = sessA.last_page ∧
    (sessionPostUpdate sessBodyB sessA).first_page = sessA.first_page ∧
    (sessionPostUpdate sessBodyB sessA).last_page =
      orNull (jget sessBodyB "last_page") ∧
    sessionEventUpdate evPageB sessA ∈
      (upsertSessionFromEvent sessionDbA evPageB 500).sessions :=
  ⟨(session_first_page_stickiness.1 evPageB sessA).1,
   (session_first_page_stickiness.1 evPageB sessA).2,
   session_first_page_stickiness.2.1 sessBodyB sessA (by decide),
   session_first_page_stickiness.2.2.1 sessBodyB sessA (by decide),
   session_first_page_stickiness.2.2.2.1 sessionDbA evPageB 500 sessA
     (by simp [sessionDbA]) (by decide)⟩

/-! ### C6 -/

theorem truthyV_obj (l : List (String × JVal)) : truthyV (JVal.obj l) = true := by
  rcases l with _ | ⟨⟨k, v⟩, rest⟩ <;> rfl

/-- A valid event carrying neither a structured campaign nor any flat
attribution field. -/
def evNoCampaign : JVal :=
  .obj [("event_id", .str "N1"), ("event_name", .str "page_view"),
        ("client_id", .str "c1"), ("session_id", .str "s1")]

/-- Counterexample to C6: an event with neither a structured campaign nor any
flat legacy field is stored with the empty object as campaign — because the
synthesized `legacyCampaign` object is always truthy — not with null. -/
theorem campaign_empty_object_counterexample :
    ((postEvent evNoCampaign ctx0 7 st0 noFault).2).db.events.map
      (fun r => r.campaign) = [JVal.objNil] ∧
    JVal.objNil ≠ JVal.null ∧
    pick evNoCampaign legacyCampaignKeys = [] := by
  refine ⟨rfl, by decide, by decide⟩

/-- C6 (amended): a truthy structured campaign object is stored as the
campaign; without one the stored campaign is the object synthesized by
`pick` from exactly the present flat legacy fields; the stored campaign is
never null — with neither a structured campaign nor any flat field it is the
empty object, and the trailing `|| null` normalizations never fire. -/
theorem legacy_campaign_synthesis :
    (∀ (ev ua : JVal) (now id : Nat),
      (eventRowOf ev ua now id).campaign = orNull (some (campaignOf ev))) ∧
    (∀ ev : JVal, truthy (jget ev "campaign") = true →
      campaignOf ev = (jget ev "campaign").getD .null) ∧
    (∀ ev : JVal, truthy (jget ev "campaign") = false →
      campaignOf ev = JVal.obj (pick ev legacyCampaignKeys)) ∧
    (∀ ev : JVal, campaignOf ev ≠ JVal.null) ∧
    (∀ ev : JVal, orNull (some (campaignOf ev)) = campaignOf ev) ∧
    campaignOf (.obj [("utm_source", .str "ads"), ("utm_medium", .str "cpc")]) =
      .obj [("utm_source", .str "ads"), ("utm_medium", .str "cpc")] := by
  have hfalsy : ∀ ev : JVal, truthy (jget ev "campaign") = false →
      campaignOf ev = JVal.obj (pick ev legacyCampaignKeys) := by
    intro ev h
    cases hj : jget ev "campaign" with
    | none =>
      simp [campaignOf, hj, jsOr, truthyV_obj]
    | some v =>
      have hv : truthyV v = false := by
        rw [hj] at h
        simpa [truthy] using h
      simp [campaignOf, hj, jsOr, hv, truthyV_obj]
  have htruthy : ∀ ev : JVal, truthy (jget ev "campaign") = true →
      campaignOf ev = (jget ev "campaign").getD .null := by
    intro ev h
    cases hj : jget ev "campaign" with
    | none => rw [hj] at h; simp [truthy] at h
    | some v =>
      have hv : truthyV v = true := by
        rw [hj] at h
        simpa [truthy] using h
      simp [campaignOf, hj, jsOr, hv]
  have hnotnull : ∀ ev : JVal, campaignOf ev ≠ JVal.null := by
    intro ev
    by_cases h : truthy (jget ev "campaign") = true
    · rw [htruthy ev h]
      cases hj : jget ev "campaign" with
      | none => rw [hj] at h; simp [truthy] at h
      | some v =>
        have hv : truthyV v = true := by
          rw [hj] at h
          simpa [truthy] using h
        cases v <;> simp_all [truthyV]
    · have h' : truthy (jget ev "campaign") = false := by
        cases hc : truthy (jget ev "campaign")
        · rfl
        · exact absurd hc h
      rw [hfalsy ev h']
      rcases hp : pick ev legacyCampaignKeys with _ | ⟨⟨k, v⟩, rest⟩ <;>
        simp [JVal.obj]
  refine ⟨fun ev ua now id => rfl, htruthy, hfalsy, hnotnull, ?_, by decide⟩
  intro ev
  have := hnotnull ev
  by_cases h : truthy (jget ev "campaign") = true
  · rw [htruthy ev h]
    cases hj : jget ev "campaign" with
    | none => rw [hj] at h; simp [truthy] at h
    | some v =>
      have hv : truthyV v = true := by
        rw [hj] at h
        simpa [truthy] using h
      simp [orNull, jsOr, hv]
  · have h' : truthy (jget ev "campaign") = false := by
      cases hc : truthy (jget ev "campaign")
      · rfl
      · exact absurd hc h
    rw [hfalsy ev h']
    simp [orNull, jsOr, truthyV_obj]

/-- An event carrying only the flat fields of the spec's example. -/
def evFlatUtm : JVal :=
  .obj [("event_id", .str "U1"), ("event_name", .str "page_view"),
        ("client_id", .str "c1"), ("utm_source", .str "ads"),
        ("utm_medium", .str "cpc")]

/-- Witness for the amended C6 at concrete inputs. -/
theorem legacy_campaign_synthesis_witness :
    campaignOf evFlatUtm = JVal.obj (pick evFlatUtm legacyCampaignKeys) ∧
    campaignOf (.obj [("campaign", .obj [("utm_source", .str "x")])]) =
      (jget (.obj [("campaign", .obj [("utm_source", .str "x")])])
        "campaign").getD .null ∧
    campaignOf evNoCampaign ≠ JVal.null :=
  ⟨legacy_campaign_synthesis.2.2.1 evFlatUtm (by decide),
   legacy_campaign_synthesis.2.1 (.obj [("campaign", .obj [("utm_source", .str "x")])])
     (by decide),
   legacy_campaign_synthesis.2.2.2.1 evNoCampaign⟩

/-! ### C2 -/

/-- No fault anywhere in the bulk transaction. -/
def bulkNoFault : BulkFault := { itemFails := [], metaInsertFails := false }

/-- A forced fault on the third item's event insert. -/
def bulkFaultC : BulkFault := { itemFails := [false, false, true],
                                metaInsertFails := false }

/-- C2: in the bulk endpoint, items failing validation or dedupe are skipped
without aborting the loop (they only fail to increase the ingested count),
while every insert shares the batch transaction — whenever the request ends
in `db_error` the whole database is rolled back to its pre-request state.
Concretely, `[evA, evB, evC]` with invalid `evB` yields ingested 2 with
exactly A and C persisted, while a forced fault during C's insert yields
`db_error` with neither A nor C persisted. -/
theorem bulk_batch_semantics :
    (∀ (itemFails : List Bool) (now : Nat) (ev : JVal) (rest : List JVal)
        (i : Nat) (db : DB) (dd : Dedupe) (ok : Nat),
      (validateEvent ev).1 ≠ [] →
      bulkLoop itemFails now (ev :: rest) i db dd ok =
        bulkLoop itemFails now rest (i + 1) db dd ok) ∧
    (∀ (itemFails : List Bool) (now : Nat) (ev : JVal) (rest : List JVal)
        (i : Nat) (db : DB) (dd : Dedupe) (ok : Nat),
      (validateEvent ev).1 = [] → (shouldStore ev now dd).1 = false →
      bulkLoop itemFails now (ev :: rest) i db dd ok =
        bulkLoop itemFails now rest (i + 1) db (shouldStore ev now dd).2 ok) ∧
    (∀ (events : List JVal) (ctx : ReqCtx) (now : Nat) (st : ServerState)
        (f : BulkFault),
      (postBulk events ctx now st f).1 = .dbError →
      ((postBulk events ctx now st f).2).db = st.db) ∧
    ((postBulk [evA, evB, evC] ctx0 100 st0 bulkNoFault).1 = .okIngested 2 ∧
      ((postBulk [evA, evB, evC] ctx0 100 st0 bulkNoFault).2).db.events.map
        (fun r => r.event_id) = [.str "A", .str "C"]) ∧
    ((postBulk [evA, evB, evC] ctx0 100 st0 bulkFaultC).1 = .dbError ∧
      ((postBulk [evA, evB, evC] ctx0 100 st0 bulkFaultC).2).db.events = []) := by
  refine ⟨?_, ?_, ?_, ⟨rfl, rfl⟩, ⟨rfl, rfl⟩⟩
  · intro itemFails now ev rest i db dd ok h
    simp [bulkLoop, h]
  · intro itemFails now ev rest i db dd ok hv hs
    simp [bulkLoop, hv, hs]
  · intro events ctx now st f hdb
    by_cases he : events = []
    · subst he
      simp [postBulk] at hdb
    · cases hbl : bulkLoop f.itemFails now events 0 st.db st.dedupe 0 with
      | error dd => simp [postBulk, he, hbl]
      | ok x =>
        obtain ⟨db', dd, ok⟩ := x
        by_cases hok : 0 < ok
        · by_cases hmf : f.metaInsertFails = true
          · simp [postBulk, he, hbl, hok, hmf]
          · simp [postBulk, he, hbl, hok, hmf] at hdb
        · simp [postBulk, he, hbl, hok] at hdb

/-- Witness for C2 at concrete inputs: invalid `evB` is skipped by the loop,
and the forced-fault batch is rolled back whole. -/
theorem bulk_batch_semantics_witness :
    bulkLoop [] 100 [evB] 0 emptyDB [] 0 = bulkLoop [] 100 [] 1 emptyDB [] 0 ∧
    bulkLoop [] 100 [evA] 0 emptyDB [(dedupeKey evA, 100)] 0 =
      bulkLoop [] 100 [] 1 emptyDB
        (shouldStore evA 100 [(dedupeKey evA, 100)]).2 0 ∧
    ((postBulk [evA, evB, evC] ctx0 100 st0 bulkFaultC).2).db = st0.db :=
  ⟨bulk_batch_semantics.1 [] 100 evB [] 0 emptyDB [] 0 (by decide),
   bulk_batch_semantics.2.1 [] 100 evA [] 0 emptyDB [(dedupeKey evA, 100)] 0
     (by decide) (by decide),
   bulk_batch_semantics.2.2.1 [evA, evB, evC] ctx0 100 st0 bulkFaultC
     (by decide)⟩
